import Mathlib

/-!
A shallow embedding of the natural-language-to-SQL translation layer of the
expense tracker (`generate_sql_from_question` in `api.py`) together with the
SQL safety validator specified for the direct-SQL endpoint.  Strings are
modelled as lists of characters; Python's substring test `a in b`,
`str.lower`, `str.upper`, `str.strip`, the ordered category scan and the
first-integer extraction of `re.search` are modelled character by character.
-/

abbrev Str := List Char

/-- ASCII lower-casing of one character, as Python `str.lower` acts on ASCII. -/
def lowc (c : Char) : Char :=
  if 65 ≤ c.toNat && c.toNat ≤ 90 then Char.ofNat (c.toNat + 32) else c

/-- ASCII upper-casing of one character, as Python `str.upper` acts on ASCII. -/
def upc (c : Char) : Char :=
  if 97 ≤ c.toNat && c.toNat ≤ 122 then Char.ofNat (c.toNat - 32) else c

def lower (s : Str) : Str := s.map lowc

def upper (s : Str) : Str := s.map upc

def isSpaceC (c : Char) : Bool := c == ' ' || c == '\t' || c == '\n' || c == '\r'

def isDigitC (c : Char) : Bool := 48 ≤ c.toNat && c.toNat ≤ 57

def isDateChar (c : Char) : Bool := isDigitC c || c == '-'

/-- Upper-case ASCII letter, the alphabet of the blocked keywords. -/
def isUpAl (c : Char) : Bool := 65 ≤ c.toNat && c.toNat ≤ 90

def isPrefixL : Str → Str → Bool
  | [], _ => true
  | _ :: _, [] => false
  | a :: as, b :: bs => a == b && isPrefixL as bs

/-- Python's substring test `n in h`. -/
def substr (n : Str) : Str → Bool
  | [] => isPrefixL n []
  | c :: t => isPrefixL n (c :: t) || substr n t

/-- Index of the leftmost occurrence of `n`, used to state claims about
textual occurrence order (Python `str.find`). -/
def subIdx (n : Str) : Str → Option Nat
  | [] => if isPrefixL n [] then some 0 else none
  | c :: t => if isPrefixL n (c :: t) then some 0 else (subIdx n t).map (· + 1)

def lstrip (s : Str) : Str := s.dropWhile isSpaceC

def rstrip (s : Str) : Str := (s.reverse.dropWhile isSpaceC).reverse

/-- Python `str.strip`. -/
def strip (s : Str) : Str := rstrip (lstrip s)

/-- First whitespace-delimited token of a string. -/
def firstToken (s : Str) : Str :=
  (s.dropWhile isSpaceC).takeWhile (fun c => !isSpaceC c)

/-- Group 1 of the first match of `re.search(r"\$?(\d+)", s)`: the first
maximal digit run of `s`. -/
def firstIntRun : Str → Option Str
  | [] => none
  | c :: t => if isDigitC c then some (c :: t.takeWhile isDigitC) else firstIntRun t

def tval : Option Str → Str
  | none => []
  | some s => s

/-- Python truthiness of an `Optional[str]`: `None` and `""` are falsy. -/
def truthy (o : Option Str) : Bool := !(tval o).isEmpty

/-- The present date strings consist of digits and dashes (in particular any
`YYYY-MM-DD` calendar date qualifies). -/
def okDate (o : Option Str) : Bool := (tval o).all isDateChar

/-- The `date_filter` fragment built at the top of `generate_sql_from_question`. -/
def dateFilter (sd ed : Option Str) : Str :=
  if truthy sd && truthy ed then
    "WHERE date BETWEEN '".data ++ tval sd ++ "' AND '".data ++ tval ed ++ "'".data
  else if truthy sd then
    "WHERE date >= '".data ++ tval sd ++ "'".data
  else if truthy ed then
    "WHERE date <= '".data ++ tval ed ++ "'".data
  else []

inductive Shape
  | totalByCat | totalOverall | listExp | bigCat | bigExp
  | smallCat | smallExp | avgCat | avgOverall | countCat | countOverall | recent
deriving DecidableEq, Repr

/-- The ordered, first-match-wins keyword cascade of
`generate_sql_from_question` (patterns 1-6 and the default branch). -/
def classify (ql : Str) : Shape :=
  if substr "total".data ql || substr "how much".data ql || substr "sum".data ql ||
      substr "spent".data ql then
    if substr "category".data ql || substr "categories".data ql ||
        substr "by category".data ql || substr "per category".data ql then
      .totalByCat
    else .totalOverall
  else if substr "list".data ql || substr "show".data ql || substr "display".data ql ||
      substr "all".data ql || substr "expenses".data ql then
    .listExp
  else if substr "biggest".data ql || substr "highest".data ql ||
      substr "maximum".data ql || substr "most".data ql || substr "largest".data ql then
    if substr "category".data ql then .bigCat else .bigExp
  else if substr "smallest".data ql || substr "lowest".data ql ||
      substr "minimum".data ql || substr "least".data ql then
    if substr "category".data ql then .smallCat else .smallExp
  else if substr "average".data ql || substr "avg".data ql || substr "mean".data ql then
    if substr "category".data ql then .avgCat else .avgOverall
  else if substr "count".data ql || substr "number".data ql ||
      substr "how many".data ql then
    if substr "category".data ql then .countCat else .countOverall
  else .recent

def CATS : List Str :=
  ["food".data, "travel".data, "shopping".data, "bills".data, "other".data]

/-- The `for cat in [...]` scan with `break`: the first category of the fixed
list that occurs as a substring of the lower-cased question. -/
def findCategory (ql : Str) : Option Str := CATS.find? (fun c => substr c ql)

def catCond (cat : Str) : Str := "category ILIKE '%".data ++ cat ++ "%'".data

/-- The `final_filter` of pattern 1's overall branch: category condition
combined with the date filter, or the date filter alone. -/
def totalFF (ql df : Str) : Str :=
  match findCategory ql with
  | some cat =>
      if df.isEmpty then "WHERE ".data ++ catCond cat
      else df ++ " AND ".data ++ catCond cat
  | none => df

/-- The `category_filter` of pattern 2. -/
def listCF (ql df : Str) : Str :=
  match findCategory ql with
  | some cat =>
      if df.isEmpty then "WHERE ".data ++ catCond cat
      else " AND ".data ++ catCond cat
  | none => []

/-- The `amount_filter` of pattern 2: present only when an over/above/more
than/greater than cue occurs and a digit run is found. -/
def listAF (ql df cf : Str) : Str :=
  if substr "over".data ql || substr "above".data ql || substr "more than".data ql ||
      substr "greater than".data ql then
    match firstIntRun ql with
    | some n =>
        if df.isEmpty && cf.isEmpty then "WHERE amount > ".data ++ n
        else " AND amount > ".data ++ n
    | none => []
  else []

/-- Renders the SQL text and interpretation for one branch of
`generate_sql_from_question`, preserving the source's f-string literals. -/
def renderShape (sh : Shape) (ql df : Str) : Str × Str :=
  match sh with
  | .totalByCat =>
      (strip ("\n            SELECT category, SUM(amount) as total_amount, COUNT(*) as expense_count\n            FROM expenses\n            ".data ++
        df ++
        "\n            GROUP BY category\n            ORDER BY total_amount DESC\n            ".data),
       "Showing total spending grouped by category".data)
  | .totalOverall =>
      (strip ("\n            SELECT SUM(amount) as total_amount, COUNT(*) as total_expenses\n            FROM expenses\n            ".data ++
        totalFF ql df ++
        "\n            ".data),
       "Showing total spending amount and number of expenses".data)
  | .listExp =>
      (strip ("\n        SELECT id, date, amount, category, subcategory, note\n        FROM expenses\n        ".data ++
        (df ++ listCF ql df ++ listAF ql df (listCF ql df)) ++
        "\n        ORDER BY date DESC, amount DESC\n        LIMIT 100\n        ".data),
       "Showing list of expenses matching your criteria".data)
  | .bigCat =>
      (strip ("\n            SELECT category, SUM(amount) as total_amount, COUNT(*) as expense_count\n            FROM expenses\n            ".data ++
        df ++
        "\n            GROUP BY category\n            ORDER BY total_amount DESC\n            LIMIT 1\n            ".data),
       "Showing the category with highest spending".data)
  | .bigExp =>
      (strip ("\n            SELECT id, date, amount, category, subcategory, note\n            FROM expenses\n            ".data ++
        df ++
        "\n            ORDER BY amount DESC\n            LIMIT 10\n            ".data),
       "Showing the highest individual expenses".data)
  | .smallCat =>
      (strip ("\n            SELECT category, SUM(amount) as total_amount, COUNT(*) as expense_count\n            FROM expenses\n            ".data ++
        df ++
        "\n            GROUP BY category\n            ORDER BY total_amount ASC\n            LIMIT 1\n            ".data),
       "Showing the category with lowest spending".data)
  | .smallExp =>
      (strip ("\n            SELECT id, date, amount, category, subcategory, note\n            FROM expenses\n            ".data ++
        df ++
        "\n            ORDER BY amount ASC\n            LIMIT 10\n            ".data),
       "Showing the lowest individual expenses".data)
  | .avgCat =>
      (strip ("\n            SELECT category, AVG(amount) as average_amount, COUNT(*) as expense_count\n            FROM expenses\n            ".data ++
        df ++
        "\n            GROUP BY category\n            ORDER BY average_amount DESC\n            ".data),
       "Showing average spending per category".data)
  | .avgOverall =>
      (strip ("\n            SELECT AVG(amount) as average_amount, COUNT(*) as total_expenses\n            FROM expenses\n            ".data ++
        df ++
        "\n            ".data),
       "Showing overall average expense amount".data)
  | .countCat =>
      (strip ("\n            SELECT category, COUNT(*) as expense_count, SUM(amount) as total_amount\n            FROM expenses\n            ".data ++
        df ++
        "\n            GROUP BY category\n            ORDER BY expense_count DESC\n            ".data),
       "Showing count of expenses per category".data)
  | .countOverall =>
      (strip ("\n            SELECT COUNT(*) as total_count\n            FROM expenses\n            ".data ++
        df ++
        "\n            ".data),
       "Showing total count of expenses".data)
  | .recent =>
      (strip ("\n        SELECT id, date, amount, category, subcategory, note\n        FROM expenses\n        ".data ++
        df ++
        "\n        ORDER BY date DESC\n        LIMIT 50\n        ".data),
       "Showing recent expenses (default view)".data)

/-- The translator of `api.py`: natural-language question plus optional date
bounds to (SQL text, interpretation). -/
def generate_sql_from_question (question : Str) (sd ed : Option Str) : Str × Str :=
  renderShape (classify (lower question)) (lower question) (dateFilter sd ed)

inductive Verdict
  | pass | notARead | blockedKeyword | missingLimit
deriving DecidableEq, Repr

def BLOCKED : List Str :=
  ["DROP".data, "DELETE".data, "INSERT".data, "UPDATE".data, "ALTER".data,
   "TRUNCATE".data, "CREATE".data]

def hasBlocked (s : Str) : Bool := BLOCKED.any (fun k => substr k s)

/-- The validator policy applied to the already upper-cased, trimmed
statement: first token must be SELECT, then the blocked-keyword substring
scan, then the LIMIT-clause requirement. -/
def vCore (s : Str) : Verdict :=
  if firstToken s == "SELECT".data then
    if hasBlocked s then .blockedKeyword
    else if substr "LIMIT".data s then .pass
    else .missingLimit
  else .notARead

/-- Modelled from the spec: the SQL Safety Validator of section 4.3 is not
part of the repository sources (only the translator is); its allow-list
policy — read-only first token, blocked destructive keywords as a substring
scan, mandatory LIMIT clause, applied to the upper-cased trimmed statement —
is taken verbatim from the specification. -/
def validate (sql : Str) : Verdict := vCore (strip (upper sql))

/-- The twelve interpretation sentences the translator can produce. -/
def INTERPS : List Str :=
  ["Showing total spending grouped by category".data,
   "Showing total spending amount and number of expenses".data,
   "Showing list of expenses matching your criteria".data,
   "Showing the category with highest spending".data,
   "Showing the highest individual expenses".data,
   "Showing the category with lowest spending".data,
   "Showing the lowest individual expenses".data,
   "Showing average spending per category".data,
   "Showing overall average expense amount".data,
   "Showing count of expenses per category".data,
   "Showing total count of expenses".data,
   "Showing recent expenses (default view)".data]

/-- The six aggregate shapes whose rendered statements carry no LIMIT clause. -/
def aggShapes : List Shape :=
  [.totalByCat, .totalOverall, .avgCat, .avgOverall, .countCat, .countOverall]

/-- The keywords whose absence from the variable middle of every rendered
statement is established: the seven blocked keywords and LIMIT. -/
def KW8 : List Str := "LIMIT".data :: BLOCKED

set_option maxRecDepth 80000

/-- Characterisation of the prefix test. -/
theorem isPrefixL_iff (n : Str) : ∀ h : Str, isPrefixL n h = true ↔ ∃ v, h = n ++ v := by
  induction n with
  | nil => intro h; simp [isPrefixL]
  | cons a as ih =>
    intro h
    cases h with
    | nil => simp [isPrefixL]
    | cons b bs =>
      simp only [isPrefixL, Bool.and_eq_true, beq_iff_eq, ih bs, List.cons_append]
      constructor
      · rintro ⟨rfl, v, rfl⟩
        exact ⟨v, rfl⟩
      · rintro ⟨v, hv⟩
        injection hv with h1 h2
        exact ⟨h1.symm, v, h2⟩

/-- Characterisation of the substring test: an occurrence is a middle factor. -/
theorem substr_iff (n : Str) : ∀ h : Str, substr n h = true ↔ ∃ u v, h = u ++ n ++ v := by
  intro h
  induction h with
  | nil =>
    simp only [substr, isPrefixL_iff]
    constructor
    · rintro ⟨v, hv⟩
      exact ⟨[], v, hv⟩
    · rintro ⟨u, v, huv⟩
      have h0 := huv.symm
      rw [List.append_eq_nil] at h0
      obtain ⟨h1, h2⟩ := h0
      rw [List.append_eq_nil] at h1
      exact ⟨[], by simp [h1.2]⟩
  | cons c t ih =>
    simp only [substr, Bool.or_eq_true, isPrefixL_iff, ih]
    constructor
    · rintro (⟨v, hv⟩ | ⟨u, v, huv⟩)
      · exact ⟨[], v, hv⟩
      · exact ⟨c :: u, v, by rw [huv]; rfl⟩
    · rintro ⟨u, v, huv⟩
      cases u with
      | nil => exact Or.inl ⟨v, huv⟩
      | cons x u' =>
        injection huv with h1 h2
        exact Or.inr ⟨u', v, h2⟩

/-- Substring containment is transitive. -/
theorem substr_trans {a b c : Str} (h1 : substr a b = true) (h2 : substr b c = true) :
    substr a c = true := by
  rw [substr_iff] at h1 h2 ⊢
  obtain ⟨u, v, rfl⟩ := h1
  obtain ⟨x, y, rfl⟩ := h2
  exact ⟨x ++ u, v ++ y, by simp [List.append_assoc]⟩

/-- A substring of the left part occurs in the concatenation. -/
theorem substr_append_left {n a : Str} (b : Str) (h : substr n a = true) :
    substr n (a ++ b) = true := by
  rw [substr_iff] at h ⊢
  obtain ⟨u, v, rfl⟩ := h
  exact ⟨u, v ++ b, by simp [List.append_assoc]⟩

/-- A substring of the right part occurs in the concatenation. -/
theorem substr_append_right {n b : Str} (a : Str) (h : substr n b = true) :
    substr n (a ++ b) = true := by
  rw [substr_iff] at h ⊢
  obtain ⟨u, v, rfl⟩ := h
  exact ⟨a ++ u, v, by simp [List.append_assoc]⟩

/-- Absence in a concatenation gives absence in the left part. -/
theorem substr_false_left {n a b : Str} (h : substr n (a ++ b) = false) :
    substr n a = false := by
  cases hx : substr n a with
  | false => rfl
  | true =>
    have h2 := substr_append_left (n := n) b hx
    rw [h] at h2
    exact Bool.noConfusion h2

/-- Absence in a concatenation gives absence in the right part. -/
theorem substr_false_right {n a b : Str} (h : substr n (a ++ b) = false) :
    substr n b = false := by
  cases hx : substr n b with
  | false => rfl
  | true =>
    have h2 := substr_append_right (n := n) a hx
    rw [h] at h2
    exact Bool.noConfusion h2

/-- A needle made of upper-case letters cannot match across a non-letter
character: the prefix test ignores everything from that character on. -/
theorem isPrefixL_sep {c : Char} (hc : isUpAl c = false) :
    ∀ (n a b : Str), n.all isUpAl = true → isPrefixL n (a ++ c :: b) = isPrefixL n a := by
  intro n
  induction n with
  | nil => intro a b _; simp [isPrefixL]
  | cons x xs ih =>
    intro a b hn
    rw [List.all_cons, Bool.and_eq_true] at hn
    obtain ⟨h1, h2⟩ := hn
    cases a with
    | nil =>
      have hxc : (x == c) = false := by
        rw [beq_eq_false_iff_ne]
        intro e
        rw [e, hc] at h1
        exact Bool.noConfusion h1
      simp [isPrefixL, hxc]
    | cons y a' =>
      simp only [List.cons_append, isPrefixL, List.append_eq]
      rw [ih a' b h2]

/-- Occurrences of an all-letter needle cannot straddle a non-letter
separator character. -/
theorem substr_sep {c : Char} (hc : isUpAl c = false) (n : Str)
    (hn : n.all isUpAl = true) :
    ∀ (a b : Str), substr n (a ++ c :: b) = (substr n a || substr n b) := by
  intro a
  induction a with
  | nil =>
    intro b
    have h0 := isPrefixL_sep hc n [] b hn
    simp only [List.nil_append] at h0
    simp only [List.nil_append, substr, h0]
  | cons y a' ih =>
    intro b
    have h0 := isPrefixL_sep hc n (y :: a') b hn
    simp only [List.cons_append] at h0
    simp only [List.cons_append, substr, List.append_eq]
    rw [ih b, h0]
    simp [Bool.or_assoc]

/-- Gluing two keyword-free strings across a non-letter separator keeps the
concatenation keyword-free. -/
theorem substr_glue {c : Char} (hc : isUpAl c = false) {n : Str}
    (hn : n.all isUpAl = true) {X Y : Str} (hX : substr n X = false)
    (hY : substr n Y = false) : substr n (X ++ c :: Y) = false := by
  rw [substr_sep hc n hn X Y, hX, hY]
  rfl

theorem eq_concat_of_getLast? :
    ∀ (X : Str) (c : Char), X.getLast? = some c → ∃ X₀, X = X₀ ++ [c]
  | [], c, h => by simp at h
  | [x], c, h => by
      simp [List.getLast?_singleton] at h
      exact ⟨[], by simp [h]⟩
  | x :: y :: t, c, h => by
      rw [List.getLast?_cons_cons] at h
      obtain ⟨X₀, e⟩ := eq_concat_of_getLast? (y :: t) c h
      exact ⟨x :: X₀, by simp [e]⟩

/-- Gluing where the left string ends in a non-letter character. -/
theorem substr_glue_last {c : Char} (hc : isUpAl c = false) {n : Str}
    (hn : n.all isUpAl = true) {X Y : Str} (hlast : X.getLast? = some c)
    (hX : substr n X = false) (hY : substr n Y = false) :
    substr n (X ++ Y) = false := by
  obtain ⟨X₀, rfl⟩ := eq_concat_of_getLast? X c hlast
  have hX₀ : substr n X₀ = false := substr_false_left hX
  rw [List.append_assoc, List.singleton_append]
  exact substr_glue hc hn hX₀ hY

/-- A nonempty all-letter needle does not occur in a letter-free string, and
such a string can be skipped at the front of any haystack. -/
theorem substr_skip {n : Str} (hne : n ≠ []) (hn : n.all isUpAl = true) :
    ∀ (hay : Str), hay.all (fun c => !isUpAl c) = true →
      ∀ rest : Str, substr n (hay ++ rest) = substr n rest := by
  intro hay
  induction hay with
  | nil => intro _ rest; rfl
  | cons c h' ih =>
    intro hbad rest
    rw [List.all_cons, Bool.and_eq_true] at hbad
    obtain ⟨hb1, hb2⟩ := hbad
    have hc : isUpAl c = false := by
      cases hx : isUpAl c with
      | false => rfl
      | true => rw [hx] at hb1; exact Bool.noConfusion hb1
    have h0 := substr_sep hc n hn [] (h' ++ rest)
    simp only [List.nil_append] at h0
    rw [List.cons_append, h0, ih hb2 rest]
    cases n with
    | nil => exact absurd rfl hne
    | cons a as => simp [substr, isPrefixL]

/-- Left-stripping stops inside a part that has a non-space character. -/
theorem lstrip_append {a : Str} (m : Str) (h : a.all isSpaceC = false) :
    lstrip (a ++ m) = lstrip a ++ m := by
  unfold lstrip
  rw [List.dropWhile_append]
  have hne : (a.dropWhile isSpaceC).isEmpty = false := by
    cases he : (a.dropWhile isSpaceC).isEmpty with
    | false => rfl
    | true =>
      rw [List.isEmpty_iff, List.dropWhile_eq_nil_iff] at he
      have : a.all isSpaceC = true := by rw [List.all_eq_true]; exact he
      rw [this] at h
      exact Bool.noConfusion h
  rw [if_neg (by simp [hne])]

/-- Right-stripping stops inside a part that has a non-space character. -/
theorem rstrip_append (m : Str) {b : Str} (h : b.all isSpaceC = false) :
    rstrip (m ++ b) = m ++ rstrip b := by
  have h' : b.reverse.all isSpaceC = false := by rw [List.all_reverse]; exact h
  have e := lstrip_append (a := b.reverse) m.reverse h'
  unfold lstrip at e
  unfold rstrip
  rw [List.reverse_append, e, List.reverse_append, List.reverse_reverse]

/-- Stripping a three-part concatenation whose outer parts are not all
whitespace touches only the outer parts. -/
theorem strip3 {A B : Str} (m : Str) (hA : A.all isSpaceC = false)
    (hB : B.all isSpaceC = false) :
    strip (A ++ m ++ B) = lstrip A ++ m ++ rstrip B := by
  unfold strip
  rw [List.append_assoc, lstrip_append (m ++ B) hA, ← List.append_assoc,
    rstrip_append (lstrip A ++ m) hB]

/-- The first token of a statement that begins with a self-stripped part
whose first word is SELECT. -/
theorem firstToken_concat {UA : Str} (rest : Str) (h1 : UA.all isSpaceC = false)
    (h2 : List.dropWhile isSpaceC UA = UA)
    (h3 : UA.all (fun c => !isSpaceC c) = false)
    (h4 : List.takeWhile (fun c => !isSpaceC c) UA = "SELECT".data) :
    firstToken (UA ++ rest) = "SELECT".data := by
  unfold firstToken
  rw [List.dropWhile_append]
  have hne : (UA.dropWhile isSpaceC).isEmpty = false := by
    rw [h2]
    cases hU : UA.isEmpty with
    | false => rfl
    | true =>
      rw [List.isEmpty_iff] at hU
      rw [hU] at h1
      simp at h1
  rw [if_neg (by simp [hne]), h2, List.takeWhile_append]
  have hlen : ¬(UA.takeWhile (fun c => !isSpaceC c)).length = UA.length := by
    intro he
    have heq := (List.takeWhile_prefix (l := UA) (fun c => !isSpaceC c)).eq_of_length he
    rw [List.takeWhile_eq_self_iff] at heq
    have hall : UA.all (fun c => !isSpaceC c) = true := by
      rw [List.all_eq_true]; exact heq
    rw [hall] at h3
    exact Bool.noConfusion h3
  rw [if_neg hlen]
  exact h4

theorem upper_append (a b : Str) : upper (a ++ b) = upper a ++ upper b := by
  simp [upper]

/-- Upper-casing a digit-or-dash character yields no upper-case letter. -/
theorem upc_date_bad {c : Char} (h : isDateChar c = true) : isUpAl (upc c) = false := by
  have h' : (48 ≤ c.toNat ∧ c.toNat ≤ 57) ∨ c = '-' := by
    simp only [isDateChar, isDigitC, Bool.or_eq_true, Bool.and_eq_true,
      decide_eq_true_eq, beq_iff_eq] at h
    exact h
  have hlt : c.toNat < 65 := by
    rcases h' with ⟨_, h2⟩ | rfl
    · omega
    · decide
  unfold upc
  rw [if_neg (by simp only [Bool.and_eq_true, decide_eq_true_eq]; omega)]
  unfold isUpAl
  rw [decide_eq_false (by omega : ¬65 ≤ c.toNat)]
  rfl

theorem substr_nil {n : Str} (hne : n ≠ []) : substr n [] = false := by
  cases n with
  | nil => exact absurd rfl hne
  | cons a as => rfl

/-- Upper-casing a digit-and-dash string produces no upper-case letter. -/
theorem upper_all_bad {s : Str} (h : s.all isDateChar = true) :
    (upper s).all (fun c => !isUpAl c) = true := by
  rw [List.all_eq_true] at h ⊢
  intro x hx
  rw [upper, List.mem_map] at hx
  obtain ⟨c, hc, rfl⟩ := hx
  simp [upc_date_bad (h c hc)]

theorem date_of_digit {c : Char} (h : isDigitC c = true) : isDateChar c = true := by
  simp [isDateChar, h]

theorem upper_digits_bad {s : Str} (h : s.all isDigitC = true) :
    (upper s).all (fun c => !isUpAl c) = true := by
  apply upper_all_bad
  rw [List.all_eq_true] at h ⊢
  exact fun x hx => date_of_digit (h x hx)

/-- The extracted digit run is a nonempty string of digits. -/
theorem firstIntRun_digits :
    ∀ {s n : Str}, firstIntRun s = some n → n.all isDigitC = true ∧ n ≠ [] := by
  intro s
  induction s with
  | nil => intro n h; simp [firstIntRun] at h
  | cons c t ih =>
    intro n h
    unfold firstIntRun at h
    split at h
    · cases h
      refine ⟨?_, by simp⟩
      rw [List.all_eq_true]
      intro x hx
      rcases List.mem_cons.mp hx with rfl | hx'
      · assumption
      · exact List.mem_takeWhile_imp hx'
    · exact ih h

/-- No all-letter keyword occurs in any rendered date filter whose date
strings consist of digits and dashes; the concrete framing fragments are
assumed keyword-free (dischargeable by computation for each keyword). -/
theorem df_safe {sd ed : Option Str} (hs : okDate sd = true) (he : okDate ed = true)
    {kw : Str} (hk : kw.all isUpAl = true) (hne : kw ≠ [])
    (h1 : substr kw "WHERE DATE BETWEEN '".data = false)
    (h2 : substr kw "' AND '".data = false)
    (h3 : substr kw "'".data = false)
    (h4 : substr kw "WHERE DATE >= '".data = false)
    (h5 : substr kw "WHERE DATE <= '".data = false) :
    substr kw (upper (dateFilter sd ed)) = false := by
  have hsb : (upper (tval sd)).all (fun c => !isUpAl c) = true := upper_all_bad hs
  have heb : (upper (tval ed)).all (fun c => !isUpAl c) = true := upper_all_bad he
  unfold dateFilter
  split
  · simp only [List.append_assoc, upper_append]
    rw [show upper "WHERE date BETWEEN '".data = "WHERE DATE BETWEEN '".data from by decide,
      show upper "' AND '".data = "' AND '".data from by decide,
      show upper "'".data = "'".data from by decide]
    refine substr_glue_last (c := '\'') (by decide) hk (by decide) h1 ?_
    rw [substr_skip hne hk (upper (tval sd)) hsb]
    refine substr_glue_last (c := '\'') (by decide) hk (by decide) h2 ?_
    rw [substr_skip hne hk (upper (tval ed)) heb]
    exact h3
  · split
    · simp only [List.append_assoc, upper_append]
      rw [show upper "WHERE date >= '".data = "WHERE DATE >= '".data from by decide,
        show upper "'".data = "'".data from by decide]
      refine substr_glue_last (c := '\'') (by decide) hk (by decide) h4 ?_
      rw [substr_skip hne hk (upper (tval sd)) hsb]
      exact h3
    · split
      · simp only [List.append_assoc, upper_append]
        rw [show upper "WHERE date <= '".data = "WHERE DATE <= '".data from by decide,
          show upper "'".data = "'".data from by decide]
        refine substr_glue_last (c := '\'') (by decide) hk (by decide) h5 ?_
        rw [substr_skip hne hk (upper (tval ed)) heb]
        exact h3
      · exact substr_nil hne

theorem substr_no_letters {n hay : Str} (hne : n ≠ []) (hk : n.all isUpAl = true)
    (hbad : hay.all (fun c => !isUpAl c) = true) : substr n hay = false := by
  rw [← List.append_nil hay, substr_skip hne hk hay hbad]
  exact substr_nil hne

/-- Gluing where the right string begins with a non-letter character. -/
theorem substr_glue_head {c : Char} (hc : isUpAl c = false) {n : Str}
    (hn : n.all isUpAl = true) {X Y : Str} (hhead : Y.head? = some c)
    (hX : substr n X = false) (hY : substr n Y = false) :
    substr n (X ++ Y) = false := by
  cases Y with
  | nil => simp at hhead
  | cons d Y' =>
    have hdc : d = c := by
      simp only [List.head?] at hhead
      injection hhead
    subst hdc
    have hY' : substr n Y' = false := by
      simp only [substr, Bool.or_eq_false_iff] at hY
      exact hY.2
    exact substr_glue hc hn hX hY'

theorem upper_append_head {x : Str} {c : Char} (hx : x.head? = some c) (y : Str) :
    (upper (x ++ y)).head? = some (upc c) := by
  cases x with
  | nil => simp at hx
  | cons d t =>
    have hdc : d = c := by
      simp only [List.head?] at hx
      injection hx
    subst hdc
    simp [upper]

theorem kw8_good {kw : Str} (h : kw ∈ KW8) : kw.all isUpAl = true ∧ kw ≠ [] := by
  fin_cases h <;> exact ⟨by decide, by decide⟩

/-- None of the eight keywords occurs in any rendered date filter built from
digit-and-dash date strings. -/
theorem df_clean8 {sd ed : Option Str} (hs : okDate sd = true) (he : okDate ed = true)
    {kw : Str} (hkw : kw ∈ KW8) : substr kw (upper (dateFilter sd ed)) = false := by
  fin_cases hkw <;>
    exact df_safe hs he (by decide) (by decide) (by decide) (by decide) (by decide)
      (by decide) (by decide)

/-- None of the eight keywords occurs in a WHERE-framed category condition. -/
theorem whereCat_clean {kw : Str} (hkw : kw ∈ KW8) {cat : Str} (hc : cat ∈ CATS) :
    substr kw (upper ("WHERE ".data ++ catCond cat)) = false := by
  fin_cases hkw <;> fin_cases hc <;> decide

/-- None of the eight keywords occurs in an AND-framed category condition. -/
theorem andCat_clean {kw : Str} (hkw : kw ∈ KW8) {cat : Str} (hc : cat ∈ CATS) :
    substr kw (upper (" AND ".data ++ catCond cat)) = false := by
  fin_cases hkw <;> fin_cases hc <;> decide

/-- None of the eight keywords occurs in an amount condition whose threshold
is a digit string. -/
theorem af_clean {kw : Str} (hkw : kw ∈ KW8) {m : Str} (hm : m.all isDigitC = true)
    {pre : Str}
    (hpre : pre = "WHERE amount > ".data ∨ pre = " AND amount > ".data) :
    substr kw (upper (pre ++ m)) = false := by
  obtain ⟨hk, hne⟩ := kw8_good hkw
  have hmb : (upper m).all (fun c => !isUpAl c) = true := upper_digits_bad hm
  have hmc : substr kw (upper m) = false := substr_no_letters hne hk hmb
  rcases hpre with rfl | rfl
  · rw [upper_append,
      show upper "WHERE amount > ".data = "WHERE AMOUNT > ".data from by decide]
    refine substr_glue_last (c := ' ') (by decide) hk (by decide) ?_ hmc
    fin_cases hkw <;> decide
  · rw [upper_append,
      show upper " AND amount > ".data = " AND AMOUNT > ".data from by decide]
    refine substr_glue_last (c := ' ') (by decide) hk (by decide) ?_ hmc
    fin_cases hkw <;> decide

/-- None of the eight keywords occurs in the `final_filter` of pattern 1. -/
theorem ff_clean {sd ed : Option Str} (hs : okDate sd = true) (he : okDate ed = true)
    (ql : Str) {kw : Str} (hkw : kw ∈ KW8) :
    substr kw (upper (totalFF ql (dateFilter sd ed))) = false := by
  obtain ⟨hk, hne⟩ := kw8_good hkw
  cases hfc : findCategory ql with
  | none =>
    simp only [totalFF, hfc]
    exact df_clean8 hs he hkw
  | some cat =>
    have hc : cat ∈ CATS := List.mem_of_find?_eq_some hfc
    simp only [totalFF, hfc]
    split
    · exact whereCat_clean hkw hc
    · rw [List.append_assoc, upper_append]
      have hh := upper_append_head (x := " AND ".data) (c := ' ') (by decide) (catCond cat)
      exact substr_glue_head (c := upc ' ') (by decide) hk hh (df_clean8 hs he hkw)
        (andCat_clean hkw hc)

/-- None of the eight keywords occurs in the combined date, category and
amount filter middle of pattern 2. -/
theorem listMid_clean {sd ed : Option Str} (hs : okDate sd = true)
    (he : okDate ed = true) (ql : Str) {kw : Str} (hkw : kw ∈ KW8) :
    substr kw (upper (dateFilter sd ed ++ listCF ql (dateFilter sd ed) ++
      listAF ql (dateFilter sd ed) (listCF ql (dateFilter sd ed)))) = false := by
  obtain ⟨hk, hne⟩ := kw8_good hkw
  cases hfc : findCategory ql with
  | none =>
    simp only [listCF, hfc, List.append_nil]
    unfold listAF
    split
    · cases hir : firstIntRun ql with
      | none => simp only [hir, List.append_nil]; exact df_clean8 hs he hkw
      | some m =>
        have hm := (firstIntRun_digits hir).1
        simp only [hir]
        split
        · rename_i hcond
          have hdf : dateFilter sd ed = [] := by
            simp only [Bool.and_eq_true, List.isEmpty_iff] at hcond
            exact hcond.1
          rw [hdf, List.nil_append]
          exact af_clean hkw hm (Or.inl rfl)
        · rw [upper_append]
          have hh := upper_append_head (x := " AND amount > ".data) (c := ' ')
            (by decide) m
          exact substr_glue_head (c := upc ' ') (by decide) hk hh
            (df_clean8 hs he hkw) (af_clean hkw hm (Or.inr rfl))
    · simp only [List.append_nil]
      exact df_clean8 hs he hkw
  | some cat =>
    have hc : cat ∈ CATS := List.mem_of_find?_eq_some hfc
    have hWne : ("WHERE ".data ++ catCond cat).isEmpty = false := by
      cases hq : ("WHERE ".data ++ catCond cat).isEmpty with
      | false => rfl
      | true =>
        rw [List.isEmpty_iff, List.append_eq_nil] at hq
        exact absurd hq.1 (by decide)
    have hAne : (" AND ".data ++ catCond cat).isEmpty = false := by
      cases hq : (" AND ".data ++ catCond cat).isEmpty with
      | false => rfl
      | true =>
        rw [List.isEmpty_iff, List.append_eq_nil] at hq
        exact absurd hq.1 (by decide)
    simp only [listCF, hfc]
    split
    · rename_i hdfe
      have hdf : dateFilter sd ed = [] := by
        rw [List.isEmpty_iff] at hdfe
        exact hdfe
      rw [hdf, List.nil_append]
      unfold listAF
      split
      · cases hir : firstIntRun ql with
        | none => simp only [hir, List.append_nil]; exact whereCat_clean hkw hc
        | some m =>
          have hm := (firstIntRun_digits hir).1
          simp only [hir]
          split
          · rename_i hcond
            rw [Bool.and_eq_true] at hcond
            rw [hWne] at hcond
            exact Bool.noConfusion hcond.2
          · rw [upper_append]
            have hh := upper_append_head (x := " AND amount > ".data) (c := ' ')
              (by decide) m
            exact substr_glue_head (c := upc ' ') (by decide) hk hh
              (whereCat_clean hkw hc) (af_clean hkw hm (Or.inr rfl))
      · rw [List.append_nil]
        exact whereCat_clean hkw hc
    · unfold listAF
      split
      · cases hir : firstIntRun ql with
        | none =>
          simp only [hir, List.append_nil]
          rw [upper_append]
          have hh := upper_append_head (x := " AND ".data) (c := ' ') (by decide)
            (catCond cat)
          exact substr_glue_head (c := upc ' ') (by decide) hk hh
            (df_clean8 hs he hkw) (andCat_clean hkw hc)
        | some m =>
          have hm := (firstIntRun_digits hir).1
          simp only [hir]
          split
          · rename_i hcond
            rw [Bool.and_eq_true] at hcond
            rw [hAne] at hcond
            exact Bool.noConfusion hcond.2
          · rw [List.append_assoc, upper_append]
            refine substr_glue_head (c := upc ' ') (by decide) hk ?_
              (df_clean8 hs he hkw) ?_
            · rw [List.append_assoc]
              exact upper_append_head (x := " AND ".data) (c := ' ') (by decide)
                (catCond cat ++ (" AND amount > ".data ++ m))
            · rw [upper_append]
              have hh2 := upper_append_head (x := " AND amount > ".data) (c := ' ')
                (by decide) m
              exact substr_glue_head (c := upc ' ') (by decide) hk hh2
                (andCat_clean hkw hc) (af_clean hkw hm (Or.inr rfl))
      · rw [List.append_nil, upper_append]
        have hh := upper_append_head (x := " AND ".data) (c := ' ') (by decide)
          (catCond cat)
        exact substr_glue_head (c := upc ' ') (by decide) hk hh
          (df_clean8 hs he hkw) (andCat_clean hkw hc)

/-- Stripping then upper-casing then stripping a framed statement leaves a
fixed head, the upper-cased middle, and a fixed tail. -/
theorem stripUpper3 {P S : Str} (m : Str)
    (hP1 : P.all isSpaceC = false) (hS1 : S.all isSpaceC = false)
    (hP2 : (upper (lstrip P)).all isSpaceC = false)
    (hS2 : (upper (rstrip S)).all isSpaceC = false) :
    strip (upper (strip (P ++ m ++ S))) =
      lstrip (upper (lstrip P)) ++ upper m ++ rstrip (upper (rstrip S)) := by
  rw [strip3 m hP1 hS1, upper_append, upper_append, strip3 (upper m) hP2 hS2]

theorem vCore_outcome {s : Str} (hft : firstToken s = "SELECT".data)
    (hbl : hasBlocked s = false) :
    vCore s = if substr "LIMIT".data s then Verdict.pass else Verdict.missingLimit := by
  simp [vCore, hft, hbl]

theorem hasBlocked_eq_false_of {s : Str}
    (h : ∀ kw ∈ BLOCKED, substr kw s = false) : hasBlocked s = false := by
  unfold hasBlocked
  rw [List.any_eq_false]
  intro kw hkw
  rw [h kw hkw]
  simp

/-- A keyword absent from all three parts is absent from the whole framed
statement, the head ending and the tail starting with non-letters. -/
theorem clean_concat {kw : Str} (hk : kw.all isUpAl = true)
    {UA um UB : Str} (hUAl : UA.getLast? = some ' ')
    (hUBh : UB.head? = some '\n')
    (hUA : substr kw UA = false) (hum : substr kw um = false)
    (hUB : substr kw UB = false) :
    substr kw (UA ++ um ++ UB) = false := by
  rw [List.append_assoc]
  refine substr_glue_last (c := ' ') (by decide) hk hUAl hUA ?_
  exact substr_glue_head (c := '\n') (by decide) hk hUBh hum hUB

/-- Right-stripping absorbs an all-whitespace tail. -/
theorem rstrip_ws {S : Str} (h : S.all isSpaceC = true) (X : Str) :
    rstrip (X ++ S) = rstrip X := by
  unfold rstrip
  rw [List.reverse_append, List.dropWhile_append_of_pos]
  intro a ha
  rw [List.mem_reverse] at ha
  rw [List.all_eq_true] at h
  exact h a ha

/-- Right-stripping is the identity on a string ending in a non-space. -/
theorem rstrip_eq_self {X : Str} {c : Char} (hl : X.getLast? = some c)
    (hc : isSpaceC c = false) : rstrip X = X := by
  obtain ⟨X₀, rfl⟩ := eq_concat_of_getLast? X c hl
  unfold rstrip
  rw [List.reverse_append, show ([c] : Str).reverse = [c] from rfl,
    List.singleton_append, List.dropWhile_cons_of_neg (by simp [hc]),
    List.reverse_cons, List.reverse_reverse]

/-- Every rendered date filter is empty or ends in a quote. -/
theorem df_struct (sd ed : Option Str) :
    dateFilter sd ed = [] ∨ (dateFilter sd ed).getLast? = some '\'' := by
  unfold dateFilter
  split
  · exact Or.inr (by rw [List.getLast?_append]; rfl)
  · split
    · exact Or.inr (by rw [List.getLast?_append]; rfl)
    · split
      · exact Or.inr (by rw [List.getLast?_append]; rfl)
      · exact Or.inl rfl

theorem catCond_last (cat : Str) : (catCond cat).getLast? = some '\'' := by
  unfold catCond
  rw [List.getLast?_append]
  rfl

/-- The pattern-1 final filter is empty or ends in a quote. -/
theorem ff_struct (ql df : Str) (hdf : df = [] ∨ df.getLast? = some '\'') :
    totalFF ql df = [] ∨ (totalFF ql df).getLast? = some '\'' := by
  cases hfc : findCategory ql with
  | none => simp only [totalFF, hfc]; exact hdf
  | some cat =>
    refine Or.inr ?_
    simp only [totalFF, hfc]
    split
    · rw [List.getLast?_append, catCond_last]
      rfl
    · rw [List.getLast?_append, catCond_last]
      rfl

/-- Outcome of the validator on an aggregate-shaped statement: framed by a
keyword-free SELECT head and a keyword-free, LIMIT-free tail, it is rejected
with missing-limit-clause. -/
theorem branch_agg (P S um : Str)
    (hP1 : P.all isSpaceC = false) (hS1 : S.all isSpaceC = false)
    (hP2 : (upper (lstrip P)).all isSpaceC = false)
    (hS2 : (upper (rstrip S)).all isSpaceC = false)
    (hUA1 : (lstrip (upper (lstrip P))).all isSpaceC = false)
    (hUA2 : List.dropWhile isSpaceC (lstrip (upper (lstrip P))) =
      lstrip (upper (lstrip P)))
    (hUA3 : (lstrip (upper (lstrip P))).all (fun c => !isSpaceC c) = false)
    (hUA4 : List.takeWhile (fun c => !isSpaceC c) (lstrip (upper (lstrip P))) =
      "SELECT".data)
    (hUAl : (lstrip (upper (lstrip P))).getLast? = some ' ')
    (hUBh : (rstrip (upper (rstrip S))).head? = some '\n')
    (hUAc : ∀ kw ∈ KW8, substr kw (lstrip (upper (lstrip P))) = false)
    (hUBc : ∀ kw ∈ KW8, substr kw (rstrip (upper (rstrip S))) = false)
    (humc : ∀ kw ∈ KW8, substr kw (upper um) = false) :
    firstToken (strip (upper (strip (P ++ um ++ S)))) = "SELECT".data ∧
    hasBlocked (strip (upper (strip (P ++ um ++ S)))) = false ∧
    vCore (strip (upper (strip (P ++ um ++ S)))) = Verdict.missingLimit := by
  rw [stripUpper3 um hP1 hS1 hP2 hS2]
  have hft : firstToken (lstrip (upper (lstrip P)) ++ upper um ++
      rstrip (upper (rstrip S))) = "SELECT".data := by
    rw [List.append_assoc]
    exact firstToken_concat _ hUA1 hUA2 hUA3 hUA4
  have hclean : ∀ kw ∈ KW8, substr kw (lstrip (upper (lstrip P)) ++ upper um ++
      rstrip (upper (rstrip S))) = false := by
    intro kw hkw
    obtain ⟨hk, _⟩ := kw8_good hkw
    exact clean_concat hk hUAl hUBh (hUAc kw hkw) (humc kw hkw) (hUBc kw hkw)
  have hbl : hasBlocked (lstrip (upper (lstrip P)) ++ upper um ++
      rstrip (upper (rstrip S))) = false :=
    hasBlocked_eq_false_of fun kw hkw => hclean kw (List.mem_cons_of_mem _ hkw)
  have hlim := hclean "LIMIT".data (List.mem_cons_self _ _)
  refine ⟨hft, hbl, ?_⟩
  rw [vCore_outcome hft hbl, hlim]
  rfl

/-- Outcome of the validator on a list-shaped statement: framed by a
keyword-free SELECT head and a keyword-free tail that carries LIMIT, it
passes. -/
theorem branch_lim (P S um : Str)
    (hP1 : P.all isSpaceC = false) (hS1 : S.all isSpaceC = false)
    (hP2 : (upper (lstrip P)).all isSpaceC = false)
    (hS2 : (upper (rstrip S)).all isSpaceC = false)
    (hUA1 : (lstrip (upper (lstrip P))).all isSpaceC = false)
    (hUA2 : List.dropWhile isSpaceC (lstrip (upper (lstrip P))) =
      lstrip (upper (lstrip P)))
    (hUA3 : (lstrip (upper (lstrip P))).all (fun c => !isSpaceC c) = false)
    (hUA4 : List.takeWhile (fun c => !isSpaceC c) (lstrip (upper (lstrip P))) =
      "SELECT".data)
    (hUAl : (lstrip (upper (lstrip P))).getLast? = some ' ')
    (hUBh : (rstrip (upper (rstrip S))).head? = some '\n')
    (hUA7 : ∀ kw ∈ BLOCKED, substr kw (lstrip (upper (lstrip P))) = false)
    (hUB7 : ∀ kw ∈ BLOCKED, substr kw (rstrip (upper (rstrip S))) = false)
    (hUBL : substr "LIMIT".data (rstrip (upper (rstrip S))) = true)
    (hum7 : ∀ kw ∈ BLOCKED, substr kw (upper um) = false) :
    firstToken (strip (upper (strip (P ++ um ++ S)))) = "SELECT".data ∧
    hasBlocked (strip (upper (strip (P ++ um ++ S)))) = false ∧
    vCore (strip (upper (strip (P ++ um ++ S)))) = Verdict.pass := by
  rw [stripUpper3 um hP1 hS1 hP2 hS2]
  have hft : firstToken (lstrip (upper (lstrip P)) ++ upper um ++
      rstrip (upper (rstrip S))) = "SELECT".data := by
    rw [List.append_assoc]
    exact firstToken_concat _ hUA1 hUA2 hUA3 hUA4
  have hclean : ∀ kw ∈ BLOCKED, substr kw (lstrip (upper (lstrip P)) ++ upper um ++
      rstrip (upper (rstrip S))) = false := by
    intro kw hkw
    obtain ⟨hk, _⟩ := kw8_good (List.mem_cons_of_mem _ hkw)
    exact clean_concat hk hUAl hUBh (hUA7 kw hkw) (hum7 kw hkw) (hUB7 kw hkw)
  have hbl : hasBlocked (lstrip (upper (lstrip P)) ++ upper um ++
      rstrip (upper (rstrip S))) = false := hasBlocked_eq_false_of hclean
  have hlim : substr "LIMIT".data (lstrip (upper (lstrip P)) ++ upper um ++
      rstrip (upper (rstrip S))) = true := substr_append_right _ hUBL
  refine ⟨hft, hbl, ?_⟩
  rw [vCore_outcome hft hbl, hlim]
  rfl

/-- Outcome of the validator on an overall-aggregate statement whose source
tail is pure whitespace: the stripped statement ends with the filter (or the
head) and is rejected with missing-limit-clause. -/
theorem branch_agg_ws (P S um : Str)
    (hS : S.all isSpaceC = true)
    (hum : um = [] ∨ um.getLast? = some '\'')
    (hP1 : P.all isSpaceC = false)
    (hP2 : (upper (lstrip P)).all isSpaceC = false)
    (hUA1 : (lstrip (upper (lstrip P))).all isSpaceC = false)
    (hUA2 : List.dropWhile isSpaceC (lstrip (upper (lstrip P))) =
      lstrip (upper (lstrip P)))
    (hUA3 : (lstrip (upper (lstrip P))).all (fun c => !isSpaceC c) = false)
    (hUA4 : List.takeWhile (fun c => !isSpaceC c) (lstrip (upper (lstrip P))) =
      "SELECT".data)
    (hUAl : (lstrip (upper (lstrip P))).getLast? = some ' ')
    (hUAc : ∀ kw ∈ KW8, substr kw (lstrip (upper (lstrip P))) = false)
    (humc : ∀ kw ∈ KW8, substr kw (upper um) = false)
    (h01 : firstToken (strip (upper (rstrip (lstrip P)))) = "SELECT".data)
    (h02 : hasBlocked (strip (upper (rstrip (lstrip P)))) = false)
    (h03 : substr "LIMIT".data (strip (upper (rstrip (lstrip P)))) = false) :
    firstToken (strip (upper (strip (P ++ um ++ S)))) = "SELECT".data ∧
    hasBlocked (strip (upper (strip (P ++ um ++ S)))) = false ∧
    vCore (strip (upper (strip (P ++ um ++ S)))) = Verdict.missingLimit := by
  rcases hum with rfl | hql
  · have hsql : strip (P ++ [] ++ S) = rstrip (lstrip P) := by
      rw [List.append_nil]
      unfold strip
      rw [lstrip_append S hP1, rstrip_ws hS]
    rw [hsql]
    exact ⟨h01, h02, by rw [vCore_outcome h01 h02, h03]; rfl⟩
  · obtain ⟨X₀, rfl⟩ := eq_concat_of_getLast? um '\'' hql
    have humsp : (X₀ ++ ['\'']).all isSpaceC = false := by
      rw [List.all_append]
      rw [show (['\''] : Str).all isSpaceC = false from by decide]
      simp
    have hupsp : (upper (X₀ ++ ['\''])).all isSpaceC = false := by
      rw [upper_append, List.all_append]
      rw [show (upper ['\''] : Str).all isSpaceC = false from by decide]
      simp
    have huplast : (upper (X₀ ++ ['\''])).getLast? = some '\'' := by
      rw [upper_append, List.getLast?_append]
      rfl
    have hsql : strip (P ++ (X₀ ++ ['\'']) ++ S) = lstrip P ++ (X₀ ++ ['\'']) := by
      unfold strip
      rw [List.append_assoc, lstrip_append ((X₀ ++ ['\'']) ++ S) hP1,
        ← List.append_assoc, rstrip_ws hS,
        rstrip_append (lstrip P) humsp,
        rstrip_eq_self (List.getLast?_concat (a := '\'') X₀) (by decide)]
    rw [hsql]
    have hH2 : strip (upper (lstrip P ++ (X₀ ++ ['\'']))) =
        lstrip (upper (lstrip P)) ++ upper (X₀ ++ ['\'']) := by
      rw [upper_append]
      unfold strip
      rw [lstrip_append (upper (X₀ ++ ['\''])) hP2,
        rstrip_append (lstrip (upper (lstrip P))) hupsp,
        rstrip_eq_self huplast (by decide)]
    rw [hH2]
    have hft : firstToken (lstrip (upper (lstrip P)) ++ upper (X₀ ++ ['\''])) =
        "SELECT".data := firstToken_concat _ hUA1 hUA2 hUA3 hUA4
    have hclean : ∀ kw ∈ KW8, substr kw (lstrip (upper (lstrip P)) ++
        upper (X₀ ++ ['\''])) = false := by
      intro kw hkw
      obtain ⟨hk, _⟩ := kw8_good hkw
      exact substr_glue_last (c := ' ') (by decide) hk hUAl (hUAc kw hkw)
        (humc kw hkw)
    have hbl : hasBlocked (lstrip (upper (lstrip P)) ++ upper (X₀ ++ ['\''])) =
        false :=
      hasBlocked_eq_false_of fun kw hkw => hclean kw (List.mem_cons_of_mem _ hkw)
    have hlim := hclean "LIMIT".data (List.mem_cons_self _ _)
    refine ⟨hft, hbl, ?_⟩
    rw [vCore_outcome hft hbl, hlim]
    rfl

/-- C1 amended: for every question and every optional date range made of
digit-and-dash strings (in particular every YYYY-MM-DD calendar date), the
synthesized statement's first token is SELECT and it contains no blocked
keyword; but it passes the Safety Validator only for the ListExpenses,
BiggestCategory, BiggestExpenses, SmallestCategory, SmallestExpenses and
RecentDefault shapes — the TotalByCategory, TotalOverall, AverageByCategory,
AverageOverall, CountByCategory and CountOverall statements contain no LIMIT
clause and are rejected with missing-limit-clause. -/
theorem C1_amended (q : Str) (sd ed : Option Str) (hs : okDate sd = true)
    (he : okDate ed = true) :
    firstToken (strip (upper (generate_sql_from_question q sd ed).1)) = "SELECT".data ∧
    hasBlocked (strip (upper (generate_sql_from_question q sd ed).1)) = false ∧
    (validate (generate_sql_from_question q sd ed).1 = Verdict.missingLimit ↔
      classify (lower q) ∈ aggShapes) ∧
    (validate (generate_sql_from_question q sd ed).1 = Verdict.pass ↔
      classify (lower q) ∉ aggShapes) := by
  cases hcl : classify (lower q) with
  | totalByCat =>
    simp only [generate_sql_from_question, hcl, renderShape]
    have h := branch_agg
      "\n            SELECT category, SUM(amount) as total_amount, COUNT(*) as expense_count\n            FROM expenses\n            ".data
      "\n            GROUP BY category\n            ORDER BY total_amount DESC\n            ".data
      (dateFilter sd ed)
      (by decide) (by decide) (by decide) (by decide) (by decide) (by decide)
      (by decide) (by decide) (by decide) (by decide)
      (fun kw hkw => by fin_cases hkw <;> decide)
      (fun kw hkw => by fin_cases hkw <;> decide)
      (fun kw hkw => df_clean8 hs he hkw)
    exact ⟨h.1, h.2.1, by simp only [validate]; rw [h.2.2]; decide,
      by simp only [validate]; rw [h.2.2]; decide⟩
  | totalOverall =>
    simp only [generate_sql_from_question, hcl, renderShape]
    have h := branch_agg_ws
      "\n            SELECT SUM(amount) as total_amount, COUNT(*) as total_expenses\n            FROM expenses\n            ".data
      "\n            ".data
      (totalFF (lower q) (dateFilter sd ed))
      (by decide)
      (ff_struct (lower q) (dateFilter sd ed) (df_struct sd ed))
      (by decide) (by decide) (by decide) (by decide) (by decide) (by decide)
      (by decide)
      (fun kw hkw => by fin_cases hkw <;> decide)
      (fun kw hkw => ff_clean hs he (lower q) hkw)
      (by decide) (by decide) (by decide)
    exact ⟨h.1, h.2.1, by simp only [validate]; rw [h.2.2]; decide,
      by simp only [validate]; rw [h.2.2]; decide⟩
  | listExp =>
    simp only [generate_sql_from_question, hcl, renderShape]
    have h := branch_lim
      "\n        SELECT id, date, amount, category, subcategory, note\n        FROM expenses\n        ".data
      "\n        ORDER BY date DESC, amount DESC\n        LIMIT 100\n        ".data
      (dateFilter sd ed ++ listCF (lower q) (dateFilter sd ed) ++
        listAF (lower q) (dateFilter sd ed) (listCF (lower q) (dateFilter sd ed)))
      (by decide) (by decide) (by decide) (by decide) (by decide) (by decide)
      (by decide) (by decide) (by decide) (by decide)
      (fun kw hkw => by fin_cases hkw <;> decide)
      (fun kw hkw => by fin_cases hkw <;> decide)
      (by decide)
      (fun kw hkw => listMid_clean hs he (lower q) (List.mem_cons_of_mem _ hkw))
    exact ⟨h.1, h.2.1, by simp only [validate]; rw [h.2.2]; decide,
      by simp only [validate]; rw [h.2.2]; decide⟩
  | bigCat =>
    simp only [generate_sql_from_question, hcl, renderShape]
    have h := branch_lim
      "\n            SELECT category, SUM(amount) as total_amount, COUNT(*) as expense_count\n            FROM expenses\n            ".data
      "\n            GROUP BY category\n            ORDER BY total_amount DESC\n            LIMIT 1\n            ".data
      (dateFilter sd ed)
      (by decide) (by decide) (by decide) (by decide) (by decide) (by decide)
      (by decide) (by decide) (by decide) (by decide)
      (fun kw hkw => by fin_cases hkw <;> decide)
      (fun kw hkw => by fin_cases hkw <;> decide)
      (by decide)
      (fun kw hkw => df_clean8 hs he (List.mem_cons_of_mem _ hkw))
    exact ⟨h.1, h.2.1, by simp only [validate]; rw [h.2.2]; decide,
      by simp only [validate]; rw [h.2.2]; decide⟩
  | bigExp =>
    simp only [generate_sql_from_question, hcl, renderShape]
    have h := branch_lim
      "\n            SELECT id, date, amount, category, subcategory, note\n            FROM expenses\n            ".data
      "\n            ORDER BY amount DESC\n            LIMIT 10\n            ".data
      (dateFilter sd ed)
      (by decide) (by decide) (by decide) (by decide) (by decide) (by decide)
      (by decide) (by decide) (by decide) (by decide)
      (fun kw hkw => by fin_cases hkw <;> decide)
      (fun kw hkw => by fin_cases hkw <;> decide)
      (by decide)
      (fun kw hkw => df_clean8 hs he (List.mem_cons_of_mem _ hkw))
    exact ⟨h.1, h.2.1, by simp only [validate]; rw [h.2.2]; decide,
      by simp only [validate]; rw [h.2.2]; decide⟩
  | smallCat =>
    simp only [generate_sql_from_question, hcl, renderShape]
    have h := branch_lim
      "\n            SELECT category, SUM(amount) as total_amount, COUNT(*) as expense_count\n            FROM expenses\n            ".data
      "\n            GROUP BY category\n            ORDER BY total_amount ASC\n            LIMIT 1\n            ".data
      (dateFilter sd ed)
      (by decide) (by decide) (by decide) (by decide) (by decide) (by decide)
      (by decide) (by decide) (by decide) (by decide)
      (fun kw hkw => by fin_cases hkw <;> decide)
      (fun kw hkw => by fin_cases hkw <;> decide)
      (by decide)
      (fun kw hkw => df_clean8 hs he (List.mem_cons_of_mem _ hkw))
    exact ⟨h.1, h.2.1, by simp only [validate]; rw [h.2.2]; decide,
      by simp only [validate]; rw [h.2.2]; decide⟩
  | smallExp =>
    simp only [generate_sql_from_question, hcl, renderShape]
    have h := branch_lim
      "\n            SELECT id, date, amount, category, subcategory, note\n            FROM expenses\n            ".data
      "\n            ORDER BY amount ASC\n            LIMIT 10\n            ".data
      (dateFilter sd ed)
      (by decide) (by decide) (by decide) (by decide) (by decide) (by decide)
      (by decide) (by decide) (by decide) (by decide)
      (fun kw hkw => by fin_cases hkw <;> decide)
      (fun kw hkw => by fin_cases hkw <;> decide)
      (by decide)
      (fun kw hkw => df_clean8 hs he (List.mem_cons_of_mem _ hkw))
    exact ⟨h.1, h.2.1, by simp only [validate]; rw [h.2.2]; decide,
      by simp only [validate]; rw [h.2.2]; decide⟩
  | avgCat =>
    simp only [generate_sql_from_question, hcl, renderShape]
    have h := branch_agg
      "\n            SELECT category, AVG(amount) as average_amount, COUNT(*) as expense_count\n            FROM expenses\n            ".data
      "\n            GROUP BY category\n            ORDER BY average_amount DESC\n            ".data
      (dateFilter sd ed)
      (by decide) (by decide) (by decide) (by decide) (by decide) (by decide)
      (by decide) (by decide) (by decide) (by decide)
      (fun kw hkw => by fin_cases hkw <;> decide)
      (fun kw hkw => by fin_cases hkw <;> decide)
      (fun kw hkw => df_clean8 hs he hkw)
    exact ⟨h.1, h.2.1, by simp only [validate]; rw [h.2.2]; decide,
      by simp only [validate]; rw [h.2.2]; decide⟩
  | avgOverall =>
    simp only [generate_sql_from_question, hcl, renderShape]
    have h := branch_agg_ws
      "\n            SELECT AVG(amount) as average_amount, COUNT(*) as total_expenses\n            FROM expenses\n            ".data
      "\n            ".data
      (dateFilter sd ed)
      (by decide)
      (df_struct sd ed)
      (by decide) (by decide) (by decide) (by decide) (by decide) (by decide)
      (by decide)
      (fun kw hkw => by fin_cases hkw <;> decide)
      (fun kw hkw => df_clean8 hs he hkw)
      (by decide) (by decide) (by decide)
    exact ⟨h.1, h.2.1, by simp only [validate]; rw [h.2.2]; decide,
      by simp only [validate]; rw [h.2.2]; decide⟩
  | countCat =>
    simp only [generate_sql_from_question, hcl, renderShape]
    have h := branch_agg
      "\n            SELECT category, COUNT(*) as expense_count, SUM(amount) as total_amount\n            FROM expenses\n            ".data
      "\n            GROUP BY category\n            ORDER BY expense_count DESC\n            ".data
      (dateFilter sd ed)
      (by decide) (by decide) (by decide) (by decide) (by decide) (by decide)
      (by decide) (by decide) (by decide) (by decide)
      (fun kw hkw => by fin_cases hkw <;> decide)
      (fun kw hkw => by fin_cases hkw <;> decide)
      (fun kw hkw => df_clean8 hs he hkw)
    exact ⟨h.1, h.2.1, by simp only [validate]; rw [h.2.2]; decide,
      by simp only [validate]; rw [h.2.2]; decide⟩
  | countOverall =>
    simp only [generate_sql_from_question, hcl, renderShape]
    have h := branch_agg_ws
      "\n            SELECT COUNT(*) as total_count\n            FROM expenses\n            ".data
      "\n            ".data
      (dateFilter sd ed)
      (by decide)
      (df_struct sd ed)
      (by decide) (by decide) (by decide) (by decide) (by decide) (by decide)
      (by decide)
      (fun kw hkw => by fin_cases hkw <;> decide)
      (fun kw hkw => df_clean8 hs he hkw)
      (by decide) (by decide) (by decide)
    exact ⟨h.1, h.2.1, by simp only [validate]; rw [h.2.2]; decide,
      by simp only [validate]; rw [h.2.2]; decide⟩
  | recent =>
    simp only [generate_sql_from_question, hcl, renderShape]
    have h := branch_lim
      "\n        SELECT id, date, amount, category, subcategory, note\n        FROM expenses\n        ".data
      "\n        ORDER BY date DESC\n        LIMIT 50\n        ".data
      (dateFilter sd ed)
      (by decide) (by decide) (by decide) (by decide) (by decide) (by decide)
      (by decide) (by decide) (by decide) (by decide)
      (fun kw hkw => by fin_cases hkw <;> decide)
      (fun kw hkw => by fin_cases hkw <;> decide)
      (by decide)
      (fun kw hkw => df_clean8 hs he (List.mem_cons_of_mem _ hkw))
    exact ⟨h.1, h.2.1, by simp only [validate]; rw [h.2.2]; decide,
      by simp only [validate]; rw [h.2.2]; decide⟩

/-- C1 amended witness: at the question "total" with start date 2025-01-01,
the hypotheses hold and the synthesized statement is rejected with
missing-limit-clause. -/
theorem C1_amended_witness :
    okDate (some "2025-01-01".data) = true ∧ okDate none = true ∧
    (validate (generate_sql_from_question "total".data
      (some "2025-01-01".data) none).1 = Verdict.missingLimit ↔
      classify (lower "total".data) ∈ aggShapes) := by
  refine ⟨by decide, by decide, ?_⟩
  exact (C1_amended "total".data (some "2025-01-01".data) none (by decide)
    (by decide)).2.2.1

/-- C1 counterexample: the question "total by category" selects the
TotalByCategory shape, whose rendered statement contains no LIMIT clause, so
the Safety Validator rejects it with missing-limit-clause — refuting the
claim that every synthesized statement passes the validator. -/
theorem C1_counterexample :
    classify (lower "total by category".data) = .totalByCat ∧
    substr "LIMIT".data
      (upper (generate_sql_from_question "total by category".data none none).1) = false ∧
    validate (generate_sql_from_question "total by category".data none none).1 =
      .missingLimit := by
  decide

/-- C3 counterexample: the question "average spent by category" contains both
"average" and "category", yet the classifier selects TotalByCategory (the
word "spent" triggers the earlier total pattern), not AverageByCategory. -/
theorem C3_counterexample :
    substr "average".data (lower "average spent by category".data) = true ∧
    substr "category".data (lower "average spent by category".data) = true ∧
    classify (lower "average spent by category".data) = .totalByCat ∧
    classify (lower "average spent by category".data) ≠ .avgCat := by
  decide

/-- C4 counterexample: in "show travel and food" the category "travel" occurs
textually first (index 5, before "food" at index 16), yet the rendered
predicate uses food — the scan follows the fixed list order, not the leftmost
textual occurrence. -/
theorem C4_counterexample :
    classify (lower "show travel and food".data) = .listExp ∧
    subIdx "travel".data (lower "show travel and food".data) = some 5 ∧
    subIdx "food".data (lower "show travel and food".data) = some 16 ∧
    substr (catCond "food".data)
      (generate_sql_from_question "show travel and food".data none none).1 = true ∧
    substr (catCond "travel".data)
      (generate_sql_from_question "show travel and food".data none none).1 = false := by
  decide

/-- C5 counterexample: in "show my 2 expenses over 100" the first integer
literal following the cue "over" (at index 19) is 100, yet the rendered
amount predicate is `amount > 2` — extraction takes the first integer
anywhere in the text, not the first one after the cue. -/
theorem C5_counterexample :
    classify (lower "show my 2 expenses over 100".data) = .listExp ∧
    subIdx "over".data (lower "show my 2 expenses over 100".data) = some 19 ∧
    firstIntRun ((lower "show my 2 expenses over 100".data).drop 23) =
      some "100".data ∧
    substr "amount > 2".data
      (generate_sql_from_question "show my 2 expenses over 100".data none none).1 = true ∧
    substr "amount > 100".data
      (generate_sql_from_question "show my 2 expenses over 100".data none none).1 =
      false := by
  decide

/-- C7: translate("Show travel expenses over 100", None, None) renders a
statement containing the travel category predicate and the amount predicate
`amount > 100` combined with AND, capped at 100 rows via LIMIT 100. -/
theorem C7_travel_over_100 :
    substr "category ILIKE '%travel%' AND amount > 100".data
      (generate_sql_from_question "Show travel expenses over 100".data none none).1 =
      true ∧
    substr "LIMIT 100".data
      (generate_sql_from_question "Show travel expenses over 100".data none none).1 =
      true := by
  decide

/-- C8: translate("How much did I spend on food?", None, None) returns the
interpretation "Showing total spending amount and number of expenses" and a
statement containing the predicate `category ILIKE '%food%'`. -/
theorem C8_food_total :
    (generate_sql_from_question "How much did I spend on food?".data none none).2 =
      "Showing total spending amount and number of expenses".data ∧
    substr "category ILIKE '%food%'".data
      (generate_sql_from_question "How much did I spend on food?".data none none).1 =
      true := by
  decide

/-- C9: the empty question falls through to the RecentDefault branch: all
columns, ordered by date descending, LIMIT 50, no category predicate (no
ILIKE) and no amount predicate, with the default interpretation sentence. -/
theorem C9_empty_question :
    classify (lower "".data) = .recent ∧
    (generate_sql_from_question "".data none none).2 =
      "Showing recent expenses (default view)".data ∧
    substr "SELECT id, date, amount, category, subcategory, note".data
      (generate_sql_from_question "".data none none).1 = true ∧
    substr "ORDER BY date DESC".data
      (generate_sql_from_question "".data none none).1 = true ∧
    substr "LIMIT 50".data
      (generate_sql_from_question "".data none none).1 = true ∧
    substr "ILIKE".data (generate_sql_from_question "".data none none).1 = false ∧
    substr "amount >".data (generate_sql_from_question "".data none none).1 = false := by
  decide

theorem substr_self (n : Str) : substr n n = true := by
  rw [substr_iff]
  exact ⟨[], [], by simp⟩

/-- C2: the validator, applied to the upper-cased trimmed statement, rejects
a statement whose first token is not SELECT as not-a-read-statement, then
rejects any statement containing a blocked keyword as a substring, then
rejects a statement with no LIMIT clause, and otherwise passes; the four
concrete examples of the spec behave as stated. -/
theorem C2_validator :
    (∀ s : Str, firstToken (strip (upper s)) ≠ "SELECT".data →
      validate s = Verdict.notARead) ∧
    (∀ s : Str, firstToken (strip (upper s)) = "SELECT".data →
      hasBlocked (strip (upper s)) = true → validate s = Verdict.blockedKeyword) ∧
    (∀ s : Str, firstToken (strip (upper s)) = "SELECT".data →
      hasBlocked (strip (upper s)) = false →
      substr "LIMIT".data (strip (upper s)) = false →
      validate s = Verdict.missingLimit) ∧
    (∀ s : Str, firstToken (strip (upper s)) = "SELECT".data →
      hasBlocked (strip (upper s)) = false →
      substr "LIMIT".data (strip (upper s)) = true → validate s = Verdict.pass) ∧
    validate "SELECT * FROM expenses LIMIT 10".data = Verdict.pass ∧
    validate "select 1; DROP TABLE x".data = Verdict.blockedKeyword ∧
    validate "SELECT * FROM expenses".data = Verdict.missingLimit ∧
    validate "UPDATE expenses SET amount=1".data = Verdict.notARead := by
  refine ⟨?_, ?_, ?_, ?_, by decide, by decide, by decide, by decide⟩
  · intro s h
    simp only [validate, vCore]
    rw [if_neg (fun hb => h (eq_of_beq hb))]
  · intro s h1 h2
    simp only [validate, vCore]
    rw [if_pos (by rw [h1]; exact beq_self_eq_true _), if_pos h2]
  · intro s h1 h2 h3
    simp only [validate, vCore]
    rw [if_pos (by rw [h1]; exact beq_self_eq_true _),
      if_neg (by simp [h2]), if_neg (by simp [h3])]
  · intro s h1 h2 h3
    simp only [validate, vCore]
    rw [if_pos (by rw [h1]; exact beq_self_eq_true _),
      if_neg (by simp [h2]), if_pos h3]

/-- C2 witness: each of the four validator rules applied at a concrete
statement. -/
theorem C2_validator_witness :
    validate "UPDATE t SET a=1".data = Verdict.notARead ∧
    validate "SELECT 1; DROP TABLE x LIMIT 5".data = Verdict.blockedKeyword ∧
    validate "SELECT 2".data = Verdict.missingLimit ∧
    validate "SELECT 3 LIMIT 1".data = Verdict.pass :=
  ⟨C2_validator.1 _ (by decide),
   C2_validator.2.1 _ (by decide) (by decide),
   C2_validator.2.2.1 _ (by decide) (by decide) (by decide),
   C2_validator.2.2.2.1 _ (by decide) (by decide) (by decide)⟩

/-- C3 amended: every question containing both "total" and "category"
classifies as TotalByCategory; a question containing both "average" and
"category" classifies as AverageByCategory provided none of the trigger
words of the four earlier patterns occurs in it. -/
theorem C3_amended :
    (∀ q : Str, substr "total".data (lower q) = true →
      substr "category".data (lower q) = true →
      classify (lower q) = Shape.totalByCat) ∧
    (∀ q : Str, substr "average".data (lower q) = true →
      substr "category".data (lower q) = true →
      substr "total".data (lower q) = false →
      substr "how much".data (lower q) = false →
      substr "sum".data (lower q) = false →
      substr "spent".data (lower q) = false →
      substr "list".data (lower q) = false →
      substr "show".data (lower q) = false →
      substr "display".data (lower q) = false →
      substr "all".data (lower q) = false →
      substr "expenses".data (lower q) = false →
      substr "biggest".data (lower q) = false →
      substr "highest".data (lower q) = false →
      substr "maximum".data (lower q) = false →
      substr "most".data (lower q) = false →
      substr "largest".data (lower q) = false →
      substr "smallest".data (lower q) = false →
      substr "lowest".data (lower q) = false →
      substr "minimum".data (lower q) = false →
      substr "least".data (lower q) = false →
      classify (lower q) = Shape.avgCat) := by
  constructor
  · intro q ht hc
    simp [classify, ht, hc]
  · intro q h1 h2 h3 h4 h5 h6 h7 h8 h9 h10 h11 h12 h13 h14 h15 h16 h17 h18 h19 h20
    simp [classify, h1, h2, h3, h4, h5, h6, h7, h8, h9, h10, h11, h12, h13, h14,
      h15, h16, h17, h18, h19, h20]

/-- C3 amended witness: both parts applied at concrete questions. -/
theorem C3_amended_witness :
    classify (lower "total spend by category".data) = Shape.totalByCat ∧
    classify (lower "average per category".data) = Shape.avgCat :=
  ⟨C3_amended.1 _ (by decide) (by decide),
   C3_amended.2 _ (by decide) (by decide) (by decide) (by decide) (by decide)
     (by decide) (by decide) (by decide) (by decide) (by decide) (by decide)
     (by decide) (by decide) (by decide) (by decide) (by decide) (by decide)
     (by decide) (by decide) (by decide)⟩

/-- C4 amended: the category attached by pattern 2 is the first of the fixed
scan order food, travel, shopping, bills, other occurring anywhere in the
lower-cased question, not the leftmost textual occurrence; in particular any
ListExpenses question mentioning "food" gets the food predicate regardless
of any other category mentioned earlier in the text. -/
theorem C4_amended (q : Str) (sd ed : Option Str)
    (hshape : classify (lower q) = Shape.listExp)
    (hfood : substr "food".data (lower q) = true) :
    findCategory (lower q) = some "food".data ∧
    substr "category ILIKE '%food%'".data
      (generate_sql_from_question q sd ed).1 = true := by
  have hfc : findCategory (lower q) = some "food".data := by
    unfold findCategory CATS
    exact List.find?_cons_of_pos (p := fun c => substr c (lower q)) _ hfood
  refine ⟨hfc, ?_⟩
  simp only [generate_sql_from_question, hshape, renderShape]
  rw [strip3 _ (by decide) (by decide)]
  apply substr_append_left
  apply substr_append_right
  apply substr_append_left
  apply substr_append_right
  simp only [listCF, hfc]
  split
  · apply substr_append_right
    decide
  · apply substr_append_right
    decide

/-- C4 amended witness: a question mentioning food after travel still gets
the food predicate. -/
theorem C4_amended_witness :
    findCategory (lower "show food and travel".data) = some "food".data ∧
    substr "category ILIKE '%food%'".data
      (generate_sql_from_question "show food and travel".data none none).1 = true :=
  C4_amended "show food and travel".data none none (by decide) (by decide)

/-- C5 amended: for a ListExpenses question carrying an amount cue, the
threshold spliced into the amount predicate is the first integer literal of
the whole question text (which may precede the cue), group 1 of the first
regex match. -/
theorem C5_amended (q : Str) (sd ed : Option Str)
    (hshape : classify (lower q) = Shape.listExp)
    (hcue : (substr "over".data (lower q) || substr "above".data (lower q) ||
      substr "more than".data (lower q) ||
      substr "greater than".data (lower q)) = true)
    {n : Str} (hint : firstIntRun (lower q) = some n) :
    substr ("amount > ".data ++ n) (generate_sql_from_question q sd ed).1 = true := by
  simp only [generate_sql_from_question, hshape, renderShape]
  have haf : ∃ pre : Str,
      listAF (lower q) (dateFilter sd ed) (listCF (lower q) (dateFilter sd ed)) =
        pre ++ ("amount > ".data ++ n) := by
    unfold listAF
    rw [hcue, if_pos rfl, hint]
    split
    · rename_i m heq
      injection heq with hm
      subst hm
      split
      · exact ⟨"WHERE ".data, by
          rw [← List.append_assoc, show ("WHERE ".data ++ "amount > ".data : Str) =
            "WHERE amount > ".data from by decide]⟩
      · exact ⟨" AND ".data, by
          rw [← List.append_assoc, show (" AND ".data ++ "amount > ".data : Str) =
            " AND amount > ".data from by decide]⟩
    · rename_i heq
      exact Option.noConfusion heq
  obtain ⟨pre, hpre⟩ := haf
  rw [strip3 _ (by decide) (by decide), hpre]
  apply substr_append_left
  apply substr_append_right
  apply substr_append_right
  exact substr_append_right _ (substr_self _)

/-- C5 amended witness: in "show my 2 expenses over 100" the rendered
predicate uses the first integer of the text, 2. -/
theorem C5_amended_witness :
    substr ("amount > ".data ++ "2".data)
      (generate_sql_from_question "show my 2 expenses over 100".data none none).1 =
      true :=
  C5_amended "show my 2 expenses over 100".data none none (by decide) (by decide)
    (n := "2".data) (by decide)

/-- C6: a question containing "smallest" and none of the pattern-1 trigger
words classifies as ListExpenses with the list interpretation, because
"smallest" contains "all" as a substring and pattern 2 is checked before the
smallest/lowest/minimum pattern. -/
theorem C6_smallest_is_list (q : Str) (sd ed : Option Str)
    (hsm : substr "smallest".data (lower q) = true)
    (h1 : substr "total".data (lower q) = false)
    (h2 : substr "how much".data (lower q) = false)
    (h3 : substr "sum".data (lower q) = false)
    (h4 : substr "spent".data (lower q) = false) :
    classify (lower q) = Shape.listExp ∧
    (generate_sql_from_question q sd ed).2 =
      "Showing list of expenses matching your criteria".data := by
  have hall : substr "all".data (lower q) = true := substr_trans (by decide) hsm
  have hcl : classify (lower q) = Shape.listExp := by
    simp [classify, h1, h2, h3, h4, hall]
  exact ⟨hcl, by simp only [generate_sql_from_question, hcl, renderShape]⟩

/-- C6 witness: the question "smallest ones" is listed, not ranked. -/
theorem C6_smallest_is_list_witness :
    classify (lower "smallest ones".data) = Shape.listExp ∧
    (generate_sql_from_question "smallest ones".data none none).2 =
      "Showing list of expenses matching your criteria".data :=
  C6_smallest_is_list "smallest ones".data none none (by decide) (by decide)
    (by decide) (by decide) (by decide)

/-- C10: the translator is total — every question and date pair yields one of
the twelve fixed interpretations — and the degraded-input paths add no
predicate rather than failing: an amount cue without an integer literal
attaches no amount filter, and a question matching no known category
attaches no category filter (pattern 2) and leaves the date filter unchanged
(pattern 1). -/
theorem C10_total_behavior :
    (∀ (q : Str) (sd ed : Option Str),
      (generate_sql_from_question q sd ed).2 ∈ INTERPS) ∧
    (∀ ql df cf : Str, firstIntRun ql = none → listAF ql df cf = []) ∧
    (∀ ql df : Str, findCategory ql = none →
      listCF ql df = [] ∧ totalFF ql df = df) := by
  refine ⟨?_, ?_, ?_⟩
  · intro q sd ed
    simp only [generate_sql_from_question]
    cases classify (lower q) <;> (simp only [renderShape]; decide)
  · intro ql df cf h
    unfold listAF
    split
    · rw [h]
    · rfl
  · intro ql df h
    exact ⟨by simp only [listCF, h], by simp only [totalFF, h]⟩

/-- C10 witness: the cue "over" with no integer and no known category
attaches no filters, and the translation still produces a catalogued
interpretation. -/
theorem C10_total_behavior_witness :
    (generate_sql_from_question "over".data none none).2 ∈ INTERPS ∧
    listAF (lower "over".data) [] [] = [] ∧
    listCF (lower "over".data) [] = [] ∧
    totalFF (lower "over".data) [] = [] :=
  ⟨C10_total_behavior.1 "over".data none none,
   C10_total_behavior.2.1 _ [] [] (by decide),
   (C10_total_behavior.2.2 _ [] (by decide)).1,
   (C10_total_behavior.2.2 _ [] (by decide)).2⟩
